import Mathlib

/-!
Verification of the galaxy-cluster analysis pipeline
(`galaxy_cluster_analysis.ipynb`).

The notebook is a linear pipeline over one in-memory table:
aggregate duplicate observations per object id, 3-sigma filter on
redshift, relativistic velocity dispersion, comoving/angular-diameter
distance, virial mass.  Numeric cell values are modelled as rationals
(the CSV holds finite decimals); the only genuinely real-valued
quantities are the square roots taken by `pandas.Series.std` /
`numpy.std` and the factor pi in the arcminute-to-radian conversion,
which are modelled in `Real`.  Float `NaN` results (mean/std of an
empty column, sample std of a one-element column) are modelled by
`Option`, with `none` playing the role of `NaN`; a float comparison
against `NaN` is false, which the filter definitions reproduce
explicitly.
-/

namespace GalaxyCluster

/-- One row of the raw catalog (columns `objid`, `ra`, `dec`, `specz`,
`proj_sep` of the CSV).  `objid` is the object identifier, not unique
before aggregation. -/
structure Row where
  objid : ℕ
  ra : ℚ
  dec : ℚ
  specz : ℚ
  proj_sep : ℚ
  deriving DecidableEq, Repr

/-- Arithmetic mean of a column, as `pandas.Series.mean` computes it on
a nonempty column.  (On an empty column pandas returns `NaN`; callers
that can face an empty column go through `mean?` below.) -/
def qmean (l : List ℚ) : ℚ := l.sum / l.length

/-- `pandas.Series.mean` including the empty case: `none` models the
float `NaN` produced on an empty column. -/
def mean? (l : List ℚ) : Option ℚ :=
  if l.isEmpty then none else some (qmean l)

/-- The sample variance underlying `pandas.Series.std` (default
`ddof=1`): sum of squared deviations divided by `n - 1`.  For `n < 2`
pandas yields `NaN`, modelled as `none`. -/
def sampleVar? (l : List ℚ) : Option ℚ :=
  if l.length < 2 then none
  else some (((l.map (fun x => (x - qmean l) ^ 2)).sum) / (l.length - 1))

/-- `pandas.Series.std` (default `ddof=1`): square root of the sample
variance; `none` models `NaN` for columns of fewer than two values. -/
noncomputable def sampleStd? (l : List ℚ) : Option ℝ :=
  (sampleVar? l).map (fun v => Real.sqrt (v : ℝ))

/-- Population variance (divisor `n`): sum of squared deviations
divided by `n`.  This is what `numpy.std` (default `ddof=0`) squares
to; it is NOT what `pandas.Series.std` uses. -/
def popVar (l : List ℚ) : ℚ :=
  ((l.map (fun x => (x - qmean l) ^ 2)).sum) / l.length

/-- `numpy.std` with its default `ddof=0`: square root of the mean of
the squared deviations. -/
noncomputable def np_std (l : List ℚ) : ℝ := Real.sqrt ((qmean (l.map (fun x => (x - qmean l) ^ 2)) : ℚ) : ℝ)

/-! ### Stage 2: Aggregator

`averaged_df = df.groupby('objid').agg({'specz': 'mean', 'ra': 'first',
'dec': 'first', 'proj_sep': 'first'}).reset_index()` -/

/-- All raw rows of one `groupby('objid')` group. -/
def groupOf (df : List Row) (i : ℕ) : List Row :=
  df.filter (fun r => r.objid == i)

/-- The aggregated row of one group: `specz` is the group mean
(`'mean'`), the remaining columns take the first value seen in the
group (`'first'`). -/
def aggRow (df : List Row) (i : ℕ) : Row :=
  { objid := i
  , ra := ((groupOf df i).map Row.ra).headD 0
  , dec := ((groupOf df i).map Row.dec).headD 0
  , specz := qmean ((groupOf df i).map Row.specz)
  , proj_sep := ((groupOf df i).map Row.proj_sep).headD 0 }

/-- The aggregated table: one row per distinct `objid`.  (Pandas emits
the groups in sorted key order; the group order is irrelevant to every
property below, and `dedup` keeps one entry per distinct id.) -/
def averaged_df (df : List Row) : List Row :=
  ((df.map Row.objid).dedup).map (aggRow df)

/-! ### Stage 3: Outlier filter

`mean_redshift = averaged_df['specz'].mean()`
`std_redshift  = averaged_df['specz'].std()`
`lower_limit = mean_redshift - 3 * std_redshift`
`upper_limit = mean_redshift + 3 * std_redshift`
`filtered_df = averaged_df[(averaged_df['specz'] >= lower_limit) &
                           (averaged_df['specz'] <= upper_limit)].copy()` -/

/-- `mean_redshift`: mean of the aggregated redshift column (`NaN`,
i.e. `none`, when the table is empty). -/
def mean_redshift (adf : List Row) : Option ℚ := mean? (adf.map Row.specz)

/-- `std_redshift`: pandas sample standard deviation of the aggregated
redshift column (`NaN`, i.e. `none`, on fewer than two rows). -/
noncomputable def std_redshift (adf : List Row) : Option ℝ := sampleStd? (adf.map Row.specz)

/-- `lower_limit = mean_redshift - 3 * std_redshift` (propagating
`NaN`). -/
noncomputable def lower_limit (adf : List Row) : Option ℝ :=
  (std_redshift adf).map (fun s => ((qmean (adf.map Row.specz) : ℚ) : ℝ) - 3 * s)

/-- `upper_limit = mean_redshift + 3 * std_redshift` (propagating
`NaN`). -/
noncomputable def upper_limit (adf : List Row) : Option ℝ :=
  (std_redshift adf).map (fun s => ((qmean (adf.map Row.specz) : ℚ) : ℝ) + 3 * s)

/-- The row predicate of `filtered_df`: `specz >= lower_limit &&
specz <= upper_limit`.  When `std_redshift` is `NaN` (`none`) both
float comparisons are false, so the row is dropped.  Otherwise the
pair of comparisons against `mean ± 3·sqrt(v)` is evaluated in the
decidable squared form `(z - mean)^2 ≤ 9·v`; the lemma
`keepz_iff_limits` proves this equal to the literal comparisons of the
source. -/
def keepz (l : List ℚ) (z : ℚ) : Bool :=
  match sampleVar? l with
  | none => false
  | some v => decide ((z - qmean l) ^ 2 ≤ 9 * v)

/-- `filtered_df`: the aggregated rows whose redshift passes the
3-sigma cut. -/
def filtered_df (adf : List Row) : List Row :=
  adf.filter (fun r => keepz (adf.map Row.specz) r.specz)

/-! ### Stage 4: Kinematics

`c_light = c.to('km/s').value` (the exact SI speed of light in km/s),
`cluster_redshift = filtered_df['specz'].mean()`,
`filtered_df['velocity'] = c_light * filtered_df['specz']`,
`v_dispersion = c_light * ((1 + z)**2 - (1 + z_cluster)**2) /
                          ((1 + z)**2 + (1 + z_cluster)**2)`,
`disp = np.std(v_dispersion)`. -/

/-- `c_light`: the speed of light in km/s (299792.458, exact). -/
def c_light : ℚ := 299792458 / 1000

/-- `cluster_redshift = filtered_df['specz'].mean()`, the systemic
redshift of the cluster (mean of the filtered redshift column). -/
def cluster_redshift (fdf : List Row) : ℚ := qmean (fdf.map Row.specz)

/-- The relativistic Doppler velocity offset of one object of redshift
`z` relative to the cluster redshift `zc`. -/
def vOff (zc z : ℚ) : ℚ :=
  c_light * (((1 + z) ^ 2 - (1 + zc) ^ 2) / ((1 + z) ^ 2 + (1 + zc) ^ 2))

/-- The `velocity` column appended to the filtered table:
`c_light * specz` per row. -/
def velocity_col (fdf : List Row) : List ℚ :=
  fdf.map (fun r => c_light * r.specz)

/-- The `v_dispersion` column appended to the filtered table: the
relativistic velocity offset of each row relative to
`cluster_redshift`. -/
def v_dispersion_col (fdf : List Row) : List ℚ :=
  fdf.map (fun r => vOff (cluster_redshift fdf) r.specz)

/-- `disp = np.std(v_dispersion)`: the cluster's characteristic
velocity dispersion (km/s). -/
noncomputable def disp (fdf : List Row) : ℝ := np_std (v_dispersion_col fdf)

/-- A row of the filtered table after the kinematics stage appended
its two derived columns. -/
structure RowK extends Row where
  velocity : ℚ
  v_dispersion : ℚ
  deriving DecidableEq, Repr

/-- The kinematics stage as a whole-table operation: the two column
assignments `filtered_df['velocity'] = ...` and
`filtered_df['v_dispersion'] = ...` append derived columns to every
row of the filtered table. -/
def add_kinematics (fdf : List Row) : List RowK :=
  fdf.map (fun r =>
    { toRow := r
    , velocity := c_light * r.specz
    , v_dispersion := vOff (cluster_redshift fdf) r.specz })

/-! ### Stage 5: Geometry

`H_0 = cosmo.H0.value` (Planck18: 67.66 km/s/Mpc), `q0 = -0.534`,
`r_comoving = (c_light * z_cluster / H_0) * (1 - (z_cluster/2) * (1 + q0))`,
`D_A = r_comoving / (1 + z_cluster)`,
`max_sep_arcmin = filtered_df['proj_sep'].max()`,
`max_sep_radians = max_sep_arcmin * (np.pi / 180) / 60`,
`diameter = 2 * D_A * max_sep_radians`. -/

/-- `H_0`: the Hubble constant of `astropy.cosmology.Planck18`,
67.66 km/s/Mpc. -/
def H_0 : ℚ := 6766 / 100

/-- `q0 = -0.534`: the deceleration parameter (fixed literal). -/
def q0 : ℚ := -534 / 1000

/-- `r_comoving`: the comoving distance in Mpc via the low-redshift
Taylor expansion. -/
def r_comoving (zc : ℚ) : ℚ :=
  (c_light * zc / H_0) * (1 - (zc / 2) * (1 + q0))

/-- `D_A`: the angular diameter distance in Mpc. -/
def D_A (zc : ℚ) : ℚ := r_comoving zc / (1 + zc)

/-- `max_sep_arcmin = filtered_df['proj_sep'].max()`: the maximum
projected separation of the filtered set; `none` models the `NaN` that
pandas `max` yields on an empty column. -/
def max_sep_arcmin (fdf : List Row) : Option ℚ := (fdf.map Row.proj_sep).max?

/-- `max_sep_radians`: the maximum separation converted from
arcminutes to radians, `max_sep_arcmin * (np.pi / 180) / 60`.  (The
empty-table `NaN` is mapped to the junk value 0; every claim about the
geometry stage assumes a nonempty filtered table.) -/
noncomputable def max_sep_radians (fdf : List Row) : ℝ :=
  (((max_sep_arcmin fdf).getD 0 : ℚ) : ℝ) * (Real.pi / 180) / 60

/-- `diameter = 2 * D_A * max_sep_radians`: the physical diameter of
the cluster in Mpc (factor 2 for diameter). -/
noncomputable def diameter (fdf : List Row) : ℝ :=
  2 * ((D_A (cluster_redshift fdf) : ℚ) : ℝ) * max_sep_radians fdf

/-! ### Stage 6: Mass estimator

`sigma_ms = disp * 1000`, `R_meters = (diameter * 0.5) * 3.086e22`,
`G_SI = 6.674e-11`, `M_sun = 1.989e30`,
`M_dyn = (3 * sigma_ms**2 * R_meters) / G_SI`,
`M_dyn_solar = M_dyn / M_sun`.
The two scalars `disp` (km/s) and `diameter` (Mpc) produced upstream
are the arguments. -/

/-- `sigma_ms = disp * 1000`: velocity dispersion converted to m/s. -/
noncomputable def sigma_ms (d : ℝ) : ℝ := d * 1000

/-- `R_meters = (diameter * 0.5) * 3.086e22`: cluster radius in
meters. -/
noncomputable def R_meters (dia : ℝ) : ℝ := (dia * (5 / 10)) * (3086 / 1000 * 10 ^ 22)

/-- `G_SI = 6.674e-11`: the Newtonian gravitational constant in SI
units. -/
noncomputable def G_SI : ℝ := 6674 / 1000 / 10 ^ 11

/-- `M_sun = 1.989e30`: the solar mass in kg. -/
noncomputable def M_sun : ℝ := 1989 / 1000 * 10 ^ 30

/-- `M_dyn = (3 * sigma_ms**2 * R_meters) / G_SI`: virial dynamical
mass in kg, from the velocity dispersion `d` (km/s) and the physical
diameter `dia` (Mpc). -/
noncomputable def M_dyn (d dia : ℝ) : ℝ :=
  (3 * sigma_ms d ^ 2 * R_meters dia) / G_SI

/-- `M_dyn_solar = M_dyn / M_sun`: the reported mass in solar
masses. -/
noncomputable def M_dyn_solar (d dia : ℝ) : ℝ := M_dyn d dia / M_sun

/-! ### Claim-side definitions and concrete tables -/

/-- The population standard deviation (divisor `n`) of a column,
written independently of `np_std` for comparison with it. -/
noncomputable def popStd (l : List ℚ) : ℝ := Real.sqrt ((popVar l : ℚ) : ℝ)

/-- The inclusive population 3-sigma band around the column mean: the
range the filter claim asserts the retained redshifts to lie in. -/
def inPopBand (l : List ℚ) (z : ℚ) : Prop :=
  (qmean l : ℝ) - 3 * popStd l ≤ (z : ℝ) ∧
    (z : ℝ) ≤ (qmean l : ℝ) + 3 * popStd l

/-- A three-object aggregated table with redshifts 0, 2 and 4 (sample
variance 4, sample standard deviation 2). -/
def exA : List Row :=
  [⟨1, 5, 6, 0, 2⟩, ⟨2, 7, 8, 2, 3⟩, ⟨3, 9, 10, 4, 1⟩]

/-- A raw catalog with a duplicated identifier: object 5 is observed
twice (redshifts 1 and 3, differing positions), object 7 once. -/
def exRaw : List Row :=
  [⟨5, 10, 20, 1, 3⟩, ⟨7, 11, 21, 2, 4⟩, ⟨5, 99, 98, 3, 97⟩]

/-- An eleven-object aggregated table: nine redshifts 0, one redshift
4 and one redshift 1.  Its redshift column has mean 5/11, population
variance 162/121 and sample variance 81/55; the deviation of the
object at redshift 4 is 39/11, which lies between 3 population sigmas
and 3 sample sigmas. -/
def cexTable : List Row :=
  [⟨0, 0, 0, 0, 0⟩, ⟨1, 0, 0, 0, 0⟩, ⟨2, 0, 0, 0, 0⟩, ⟨3, 0, 0, 0, 0⟩,
   ⟨4, 0, 0, 0, 0⟩, ⟨5, 0, 0, 0, 0⟩, ⟨6, 0, 0, 0, 0⟩, ⟨7, 0, 0, 0, 0⟩,
   ⟨8, 0, 0, 0, 0⟩, ⟨9, 0, 0, 4, 0⟩, ⟨10, 0, 0, 1, 0⟩]

/-- A two-object aggregated table whose redshifts are equal, so the
standard deviation of the redshift column is zero. -/
def sameZTable : List Row := [⟨1, 0, 0, 1/20, 0⟩, ⟨2, 0, 0, 1/20, 0⟩]

/-- A one-object aggregated table. -/
def oneRowTable : List Row := [⟨1, 3, 4, 1/20, 6⟩]

/-! ### Helper lemmas -/

/-- A sum of squared deviations is nonnegative. -/
lemma sum_sq_dev_nonneg (l : List ℚ) (c : ℚ) :
    0 ≤ (l.map (fun x => (x - c) ^ 2)).sum := by
  apply List.sum_nonneg
  intro x hx
  obtain ⟨y, _, rfl⟩ := List.mem_map.mp hx
  exact sq_nonneg _

/-- The sample variance, when defined, is nonnegative. -/
lemma sampleVar?_nonneg {l : List ℚ} {v : ℚ} (h : sampleVar? l = some v) :
    0 ≤ v := by
  unfold sampleVar? at h
  split at h
  · exact absurd h (by simp)
  · rename_i hn
    have h2 : 2 ≤ l.length := by omega
    have hden : (0 : ℚ) ≤ (l.length : ℚ) - 1 := by
      have : (2 : ℚ) ≤ (l.length : ℚ) := by exact_mod_cast h2
      linarith
    have hv : ((l.map (fun x => (x - qmean l) ^ 2)).sum) / ((l.length : ℚ) - 1) = v :=
      Option.some_injective _ h
    rw [← hv]
    exact div_nonneg (sum_sq_dev_nonneg l (qmean l)) hden

/-- The population variance is nonnegative. -/
lemma popVar_nonneg (l : List ℚ) : 0 ≤ popVar l := by
  unfold popVar
  exact div_nonneg (sum_sq_dev_nonneg l (qmean l)) (by positivity)

/-- Membership in the inclusive band `mean ± 3·sqrt v` is the squared
comparison `(z - mean)^2 ≤ 9·v`, for any nonnegative `v`. -/
lemma mem_limits_iff_sq_le (m v z : ℝ) (hv : 0 ≤ v) :
    (m - 3 * Real.sqrt v ≤ z ∧ z ≤ m + 3 * Real.sqrt v) ↔
      (z - m) ^ 2 ≤ 9 * v := by
  have h9 : (0 : ℝ) ≤ 9 * v := by positivity
  have hs : Real.sqrt (9 * v) = 3 * Real.sqrt v := by
    rw [show (9 : ℝ) * v = 3 ^ 2 * v by ring,
      Real.sqrt_mul (by positivity : (0 : ℝ) ≤ (3 : ℝ) ^ 2) v,
      Real.sqrt_sq (by norm_num : (0 : ℝ) ≤ (3 : ℝ))]
  rw [Real.sq_le h9, hs]
  constructor
  · rintro ⟨h1, h2⟩
    exact ⟨by linarith, by linarith⟩
  · rintro ⟨h1, h2⟩
    exact ⟨by linarith, by linarith⟩

/-- Casting the squared comparison from `ℚ` to `ℝ`. -/
lemma sq_le_cast (z m v : ℚ) :
    (z - m) ^ 2 ≤ 9 * v ↔ ((z : ℝ) - (m : ℝ)) ^ 2 ≤ 9 * (v : ℝ) :=
  ⟨fun h => by exact_mod_cast h, fun h => by exact_mod_cast h⟩

/-- When the sample variance is defined, the filter predicate `keepz`
is exactly the pair of comparisons of the source,
`lower_limit ≤ specz` and `specz ≤ upper_limit`. -/
lemma keepz_eq_true_iff {l : List ℚ} {v : ℚ} (hv : sampleVar? l = some v)
    (z : ℚ) :
    keepz l z = true ↔
      ((qmean l : ℝ) - 3 * Real.sqrt (v : ℝ) ≤ (z : ℝ) ∧
       (z : ℝ) ≤ (qmean l : ℝ) + 3 * Real.sqrt (v : ℝ)) := by
  rw [mem_limits_iff_sq_le _ _ _ (by exact_mod_cast sampleVar?_nonneg hv),
    ← sq_le_cast]
  unfold keepz
  rw [hv]
  exact decide_eq_true_iff

/-- `sampleVar?` is defined on any column of at least two values. -/
lemma sampleVar?_isSome {l : List ℚ} (h2 : 2 ≤ l.length) :
    sampleVar? l =
      some (((l.map (fun x => (x - qmean l) ^ 2)).sum) / ((l.length : ℚ) - 1)) := by
  unfold sampleVar?
  rw [if_neg (by omega)]

/-- Row membership in `filtered_df`, phrased through the source's
`lower_limit`/`upper_limit` scalars. -/
lemma mem_filtered_iff {adf : List Row} {v : ℚ}
    (hv : sampleVar? (adf.map Row.specz) = some v) (r : Row) :
    r ∈ filtered_df adf ↔
      r ∈ adf ∧
        ((qmean (adf.map Row.specz) : ℝ) - 3 * Real.sqrt (v : ℝ) ≤ (r.specz : ℝ) ∧
         (r.specz : ℝ) ≤ (qmean (adf.map Row.specz) : ℝ) + 3 * Real.sqrt (v : ℝ)) := by
  unfold filtered_df
  rw [List.mem_filter, keepz_eq_true_iff hv]

/-- The first match of a predicate is the head of the filtered list. -/
lemma find?_eq_head?_filter {α : Type} (p : α → Bool) (l : List α) :
    l.find? p = (l.filter p).head? := by
  induction l with
  | nil => rfl
  | cons a t ih =>
    by_cases h : p a = true
    · rw [List.find?_cons_of_pos _ h, List.filter_cons_of_pos h]
      rfl
    · rw [List.find?_cons_of_neg _ (by simpa using h),
        List.filter_cons_of_neg (by simpa using h), ih]

/-- The group of an identifier occurring in the table is nonempty. -/
lemma groupOf_ne_nil {df : List Row} {i : ℕ} (h : i ∈ df.map Row.objid) :
    groupOf df i ≠ [] := by
  obtain ⟨x, hx, hxi⟩ := List.mem_map.mp h
  intro hnil
  have : x ∈ groupOf df i := by
    unfold groupOf
    exact List.mem_filter.mpr ⟨hx, by simp [hxi]⟩
  rw [hnil] at this
  exact absurd this (List.not_mem_nil x)

/-- C1: for every raw catalog, the aggregation step produces exactly
one row per unique object identifier; the aggregated redshift of that
row is the arithmetic mean (sum over count) of all raw rows sharing
the identifier, and its right ascension, declination and projected
separation are the values of the first-seen raw row of that
identifier's group. -/
theorem aggregation_unique_mean_first (df : List Row) (i : ℕ)
    (h : i ∈ df.map Row.objid) :
    ((averaged_df df).countP (fun r => r.objid == i)) = 1 ∧
    (∀ r ∈ averaged_df df, r.objid ∈ df.map Row.objid) ∧
    ∃ r ∈ averaged_df df, r.objid = i ∧
      r.specz = ((df.filter (fun x => x.objid == i)).map Row.specz).sum /
        (((df.filter (fun x => x.objid == i)).length : ℚ)) ∧
      ∃ r0, df.find? (fun x => x.objid == i) = some r0 ∧
        r.ra = r0.ra ∧ r.dec = r0.dec ∧ r.proj_sep = r0.proj_sep := by
  refine ⟨?_, ?_, ?_⟩
  · unfold averaged_df
    rw [List.countP_map]
    have he : ((fun r => r.objid == i) ∘ aggRow df) = (fun j => j == i) := rfl
    rw [he]
    have hmem : i ∈ (df.map Row.objid).dedup := List.mem_dedup.mpr h
    have hnd : (df.map Row.objid).dedup.Nodup := List.nodup_dedup _
    have : (df.map Row.objid).dedup.count i = 1 :=
      List.count_eq_one_of_mem hnd hmem
    simpa [List.count] using this
  · intro r hr
    unfold averaged_df at hr
    obtain ⟨j, hj, rfl⟩ := List.mem_map.mp hr
    have : j ∈ df.map Row.objid := List.mem_dedup.mp hj
    exact this
  · refine ⟨aggRow df i, ?_, rfl, ?_, ?_⟩
    · unfold averaged_df
      exact List.mem_map.mpr ⟨i, List.mem_dedup.mpr h, rfl⟩
    · show qmean ((groupOf df i).map Row.specz) = _
      unfold qmean groupOf
      rw [List.length_map]
    · obtain ⟨r0, t, hg⟩ := List.exists_cons_of_ne_nil (groupOf_ne_nil h)
      refine ⟨r0, ?_, ?_, ?_, ?_⟩
      · rw [find?_eq_head?_filter]
        show (groupOf df i).head? = some r0
        rw [hg]
        rfl
      · show ((groupOf df i).map Row.ra).headD 0 = r0.ra
        rw [hg]
        rfl
      · show ((groupOf df i).map Row.dec).headD 0 = r0.dec
        rw [hg]
        rfl
      · show ((groupOf df i).map Row.proj_sep).headD 0 = r0.proj_sep
        rw [hg]
        rfl

/-- C2 (counterexample): the claim that the filter retains exactly the
rows within three POPULATION standard deviations of the mean is false:
on `cexTable` the object with redshift 4 is retained by the filter
(pandas `std` divides by `n - 1`), yet its redshift lies strictly
outside the inclusive population 3-sigma band. -/
theorem filter_pop_band_refuted :
    (⟨9, 0, 0, 4, 0⟩ : Row) ∈ filtered_df cexTable ∧
      ¬ inPopBand (cexTable.map Row.specz) 4 := by
  have hcol : cexTable.map Row.specz = [0, 0, 0, 0, 0, 0, 0, 0, 0, 4, 1] := rfl
  have hmean : qmean (cexTable.map Row.specz) = 5 / 11 := by
    rw [hcol]
    norm_num [qmean]
  have hvar : sampleVar? (cexTable.map Row.specz) = some (81 / 55) := by
    rw [sampleVar?_isSome (by rw [hcol]; norm_num)]
    congr 1
    rw [hmean, hcol]
    norm_num
  constructor
  · refine (mem_filtered_iff hvar _).mpr ⟨by simp [cexTable], ?_⟩
    show (qmean (cexTable.map Row.specz) : ℝ) - 3 * Real.sqrt ((81 / 55 : ℚ) : ℝ) ≤
        ((4 : ℚ) : ℝ) ∧ ((4 : ℚ) : ℝ) ≤ _ + 3 * Real.sqrt ((81 / 55 : ℚ) : ℝ)
    rw [mem_limits_iff_sq_le _ _ _ (by norm_num), ← sq_le_cast, hmean]
    norm_num
  · unfold inPopBand popStd
    rw [mem_limits_iff_sq_le _ _ _
        (by exact_mod_cast popVar_nonneg (cexTable.map Row.specz)),
      ← sq_le_cast, hmean]
    have hpop : popVar (cexTable.map Row.specz) = 162 / 121 := by
      unfold popVar
      rw [hmean, hcol]
      norm_num
    rw [hpop]
    norm_num

/-- C2 (amended): for every aggregated table of at least two rows, the
filter computes the mean and the SAMPLE standard deviation (pandas
`std`, divisor `n - 1`) of the redshift column and retains exactly the
rows whose redshift lies in the inclusive range
`[mean - 3*std, mean + 3*std]`; every rejected row has redshift
strictly outside that range. -/
theorem filter_retains_sample_band (adf : List Row) (h2 : 2 ≤ adf.length) :
    ∃ lo hi : ℝ, lower_limit adf = some lo ∧ upper_limit adf = some hi ∧
      (∀ r : Row, r ∈ filtered_df adf ↔
        r ∈ adf ∧ lo ≤ (r.specz : ℝ) ∧ (r.specz : ℝ) ≤ hi) ∧
      ∀ r ∈ adf, r ∉ filtered_df adf →
        ((r.specz : ℝ) < lo ∨ hi < (r.specz : ℝ)) := by
  have h2' : 2 ≤ (adf.map Row.specz).length := by
    rw [List.length_map]
    exact h2
  have hv := sampleVar?_isSome h2'
  set l := adf.map Row.specz with hl
  set v := ((l.map (fun x => (x - qmean l) ^ 2)).sum) / ((l.length : ℚ) - 1)
    with hvdef
  refine ⟨(qmean l : ℝ) - 3 * Real.sqrt (v : ℝ),
    (qmean l : ℝ) + 3 * Real.sqrt (v : ℝ), ?_, ?_, ?_, ?_⟩
  · unfold lower_limit std_redshift sampleStd?
    rw [← hl, hv]
    rfl
  · unfold upper_limit std_redshift sampleStd?
    rw [← hl, hv]
    rfl
  · intro r
    exact mem_filtered_iff hv r
  · intro r hr hnot
    have := (mem_filtered_iff hv r).not.mp hnot
    push_neg at this
    rcases lt_or_le (r.specz : ℝ) ((qmean l : ℝ) - 3 * Real.sqrt (v : ℝ)) with
      hlt | hge
    · exact Or.inl hlt
    · exact Or.inr (this hr hge)

/-- Witness for the amended filter claim: the three-row table `exA`
has at least two rows, and the characterization applies to it. -/
theorem filter_retains_sample_band_witness :
    2 ≤ exA.length ∧
      ∃ lo hi : ℝ, lower_limit exA = some lo ∧ upper_limit exA = some hi ∧
        (∀ r : Row, r ∈ filtered_df exA ↔
          r ∈ exA ∧ lo ≤ (r.specz : ℝ) ∧ (r.specz : ℝ) ≤ hi) ∧
        ∀ r ∈ exA, r ∉ filtered_df exA →
          ((r.specz : ℝ) < lo ∨ hi < (r.specz : ℝ)) :=
  ⟨by decide, filter_retains_sample_band exA (by decide)⟩

/-- C3: over any filtered table, with `z_cluster` the mean of the
filtered redshifts, every entry of the `v_dispersion` column equals
`c * ((1+z)^2 - (1+z_cluster)^2) / ((1+z)^2 + (1+z_cluster)^2)` at the
corresponding row's redshift, and the characteristic velocity
dispersion is the population standard deviation — divisor `n`, not
`n - 1` — of these per-object values (`np.std` defaults to
`ddof = 0`). -/
theorem v_dispersion_formula_and_pop_std (fdf : List Row) :
    v_dispersion_col fdf = fdf.map (fun r =>
      c_light * (((1 + r.specz) ^ 2 - (1 + qmean (fdf.map Row.specz)) ^ 2) /
        ((1 + r.specz) ^ 2 + (1 + qmean (fdf.map Row.specz)) ^ 2))) ∧
    disp fdf = Real.sqrt
      (((((v_dispersion_col fdf).map
          (fun x => (x - qmean (v_dispersion_col fdf)) ^ 2)).sum /
        ((v_dispersion_col fdf).length : ℚ) : ℚ) : ℝ)) := by
  constructor
  · rfl
  · unfold disp np_std qmean
    rw [List.length_map]

/-- C4: over any filtered table with a nonempty separation column and
maximum separation `m` arcminutes, the geometry stage computes the
comoving distance by the stated Taylor expansion, the
angular-diameter distance as `r / (1 + z_cluster)`, and the physical
diameter as `2 * D_A * θ` with `θ = m × π/10800` radians (the
arcminute-to-radian conversion `(π/180)/60`). -/
theorem geometry_formulas (fdf : List Row) (m : ℚ)
    (hm : (fdf.map Row.proj_sep).max? = some m) :
    r_comoving (cluster_redshift fdf) =
      (c_light * cluster_redshift fdf / H_0) *
        (1 - (cluster_redshift fdf / 2) * (1 + q0)) ∧
    D_A (cluster_redshift fdf) =
      r_comoving (cluster_redshift fdf) / (1 + cluster_redshift fdf) ∧
    diameter fdf =
      2 * ((D_A (cluster_redshift fdf) : ℚ) : ℝ) *
        ((m : ℝ) * Real.pi / 10800) := by
  refine ⟨rfl, rfl, ?_⟩
  unfold diameter max_sep_radians max_sep_arcmin
  rw [hm]
  show _ * (((m : ℚ) : ℝ) * (Real.pi / 180) / 60) = _
  ring

/-- Witness for the geometry claim: the separation column of `exA` is
nonempty with maximum 3 arcminutes. -/
theorem geometry_formulas_witness :
    (exA.map Row.proj_sep).max? = some 3 ∧
      (r_comoving (cluster_redshift exA) =
        (c_light * cluster_redshift exA / H_0) *
          (1 - (cluster_redshift exA / 2) * (1 + q0)) ∧
      D_A (cluster_redshift exA) =
        r_comoving (cluster_redshift exA) / (1 + cluster_redshift exA) ∧
      diameter exA =
        2 * ((D_A (cluster_redshift exA) : ℚ) : ℝ) *
          ((3 : ℝ) * Real.pi / 10800)) := by
  have hm : (exA.map Row.proj_sep).max? = some 3 := by
    show ([2, 3, 1] : List ℚ).max? = some 3
    rw [List.max?]
    norm_num [List.foldl]
  exact ⟨hm, by exact_mod_cast geometry_formulas exA 3 hm⟩

/-- C5: the dynamical mass is `3 σ² R / G` with `σ = disp` converted
to m/s, `R` half the diameter converted from Mpc to meters and `G` the
SI gravitational constant, divided by the solar-mass constant; at
`disp = 1000` km/s and `diameter = 2` Mpc it equals the independently
computed exact value `1543·10^18 / 2212431` solar masses
(≈ 6.974·10^14). -/
theorem dynamical_mass_formula :
    (∀ d dia : ℝ, M_dyn_solar d dia =
      (3 * (d * 1000) ^ 2 * ((dia / 2) * (3086 / 1000 * 10 ^ 22)) /
        (6674 / 1000 / 10 ^ 11)) / (1989 / 1000 * 10 ^ 30)) ∧
    M_dyn_solar 1000 2 = 1543000000000000000000 / 2212431 := by
  constructor
  · intro d dia
    unfold M_dyn_solar M_dyn sigma_ms R_meters G_SI M_sun
    ring
  · unfold M_dyn_solar M_dyn sigma_ms R_meters G_SI M_sun
    norm_num

/-- C6: an object whose redshift equals the cluster mean redshift has
relativistic velocity offset zero.  (The hypothesis `1 + z ≠ 0` rules
out the degenerate `z = -1`, where the source's formula divides zero
by zero.) -/
theorem v_zero_at_cluster_redshift (z : ℚ) (h : 1 + z ≠ 0) :
    vOff z z = 0 := by
  unfold vOff
  rw [sub_self, zero_div, mul_zero]

/-- Witness for the zero-offset claim at the concrete redshift
`z = 1/20`. -/
theorem v_zero_at_cluster_redshift_witness :
    (1 + (1/20 : ℚ) ≠ 0) ∧ vOff (1/20) (1/20) = 0 :=
  ⟨by norm_num, v_zero_at_cluster_redshift (1/20) (by norm_num)⟩

/-- C7: the dynamical mass scales quadratically in the velocity
dispersion and linearly in the radius: doubling `disp` at fixed
diameter quadruples `M_dyn`, and doubling the diameter (hence the
radius `R = diameter/2`) at fixed `disp` doubles `M_dyn`. -/
theorem mass_scaling (d dia : ℝ) :
    M_dyn (2 * d) dia = 4 * M_dyn d dia ∧
      M_dyn d (2 * dia) = 2 * M_dyn d dia := by
  unfold M_dyn sigma_ms R_meters G_SI
  constructor <;> ring

/-- C8: the source has no error handling at the filter stage.  On an
empty aggregated table the filter silently returns an empty table and
the downstream cluster-redshift mean is `NaN` (modelled `none`), and
on a table whose redshift standard deviation is zero the filter
silently retains every row; in neither case is any error raised, so
the requirement that it must fail with a clear error does not hold of
the code. -/
theorem filter_silent_on_degenerate_inputs :
    filtered_df [] = [] ∧
      mean_redshift (filtered_df []) = none ∧
      filtered_df sameZTable = sameZTable := by
  refine ⟨rfl, rfl, ?_⟩
  have hcol : sameZTable.map Row.specz = [1/20, 1/20] := rfl
  have hmean : qmean (sameZTable.map Row.specz) = 1 / 20 := by
    rw [hcol]
    norm_num [qmean]
  have hvar : sampleVar? (sameZTable.map Row.specz) = some 0 := by
    rw [sampleVar?_isSome (by rw [hcol]; norm_num)]
    congr 1
    rw [hmean, hcol]
    norm_num
  apply List.filter_eq_self.mpr
  intro r hr
  have hz : r.specz = 1 / 20 := by
    have hcase : r = (⟨1, 0, 0, 1/20, 0⟩ : Row) ∨ r = (⟨2, 0, 0, 1/20, 0⟩ : Row) := by
      simpa [sameZTable] using hr
    rcases hcase with rfl | rfl <;> rfl
  unfold keepz
  rw [hvar]
  simp only [decide_eq_true_eq]
  rw [hz, hmean]
  norm_num

/-- C9: nothing mutates the filtered table after its creation: the
kinematics stage only appends the derived `velocity` and
`v_dispersion` columns — stripping them recovers the filtered table
exactly — and the filtered table itself is a sublist of the aggregated
table, so every retained row keeps its aggregated redshift, position
and separation values. -/
theorem kinematics_appends_only (adf : List Row) :
    (add_kinematics (filtered_df adf)).map RowK.toRow = filtered_df adf ∧
      (filtered_df adf).Sublist adf := by
  constructor
  · unfold add_kinematics
    rw [List.map_map]
    show (filtered_df adf).map (fun r => r) = filtered_df adf
    exact List.map_id' (filtered_df adf)
  · exact List.filter_sublist _

/-- C10: a one-row aggregated table raises no error but is filtered to
an empty table: the pandas sample standard deviation of one value is
`NaN` (`none`, divisor `n - 1 = 0`), both range comparisons are then
false, and the single row is dropped. -/
theorem single_row_filtered_empty (adf : List Row) (h : adf.length = 1) :
    std_redshift adf = none ∧ filtered_df adf = [] := by
  have hl : (adf.map Row.specz).length < 2 := by
    rw [List.length_map, h]
    norm_num
  have hv : sampleVar? (adf.map Row.specz) = none := by
    unfold sampleVar?
    rw [if_pos hl]
  constructor
  · unfold std_redshift sampleStd?
    rw [hv]
    rfl
  · unfold filtered_df
    apply List.filter_eq_nil_iff.mpr
    intro r hr
    unfold keepz
    rw [hv]
    simp

/-- Witness for the one-row claim at the concrete table
`oneRowTable`. -/
theorem single_row_filtered_empty_witness :
    oneRowTable.length = 1 ∧
      (std_redshift oneRowTable = none ∧ filtered_df oneRowTable = []) :=
  ⟨rfl, single_row_filtered_empty oneRowTable rfl⟩

/-- Witness for the aggregation claim: in `exRaw` the identifier 5
occurs (twice); the aggregated table has exactly one row for it, whose
redshift is the mean of the two raw rows and whose remaining columns
come from the first raw row with that identifier. -/
theorem aggregation_unique_mean_first_witness :
    5 ∈ exRaw.map Row.objid ∧
      (((averaged_df exRaw).countP (fun r => r.objid == 5)) = 1 ∧
      (∀ r ∈ averaged_df exRaw, r.objid ∈ exRaw.map Row.objid) ∧
      ∃ r ∈ averaged_df exRaw, r.objid = 5 ∧
        r.specz = ((exRaw.filter (fun x => x.objid == 5)).map Row.specz).sum /
          (((exRaw.filter (fun x => x.objid == 5)).length : ℚ)) ∧
        ∃ r0, exRaw.find? (fun x => x.objid == 5) = some r0 ∧
          r.ra = r0.ra ∧ r.dec = r0.dec ∧ r.proj_sep = r0.proj_sep) :=
  ⟨by decide, aggregation_unique_mean_first exRaw 5 (by decide)⟩

end GalaxyCluster
